import Mathlib

/-!
Verification of the analytical core of the GoM_ProbRI-MHW repository:
the rapid-intensification (RI) detector (`scripts/HI_finder.py`), the
MHW-RI compound-event matcher (`scripts/compound_mhw_RI.py`), the
missing-file-tolerant aggregation of the environmental-field plotting
scripts (`LHF_plot.py`, `TCHP_plot.py`), and the 3x3-neighborhood grid
accumulators (`conditional_mhw_ri_prob.py`, `RI_reg_prob_plot.py`).

Times are modelled as integers counting minutes (one day = 1440 minutes,
matching `timedelta(days=1)` and `pd.DateOffset(days=10)`); wind speeds as
integers; coordinates and scalar statistics as rationals.  The haversine
distance is modelled over the reals.
-/

namespace GoM

/-! ### RI detector — `scripts/HI_finder.py`

The script iterates over the rows of one flat table (never grouped by
storm): for each index `i`, `is_intensifying` scans forward while the
time difference stays within one day looking for a wind-speed increase of
at least 30; if found, an identical recording loop re-scans and appends
one episode built from row `i` and the first qualifying row `j`, then
breaks. -/

/-- One row of `ibtracs_data.csv` as read by `HI_finder.py`:
`NAME`, `ISO_TIME` (minutes), `USA_WIND`, `LAT`, `LON`. -/
structure TrackPoint where
  name : String
  time : ℤ
  wind : ℤ
  lat : ℚ
  lon : ℚ
deriving DecidableEq, Repr

/-- One output row of `intensifications.csv`. -/
structure Episode where
  hurricane_name : String
  start_time : ℤ
  start_wind_speed : ℤ
  lat_start : ℚ
  lon_start : ℚ
  end_time : ℤ
  end_wind_speed : ℤ
  lat_end : ℚ
  lon_end : ℚ
  wind_speed_change : ℤ
  duration : ℚ
deriving DecidableEq, Repr

/-- The forward scan shared by `is_intensifying` and the recording loop of
`HI_finder.py`: walk the rows after the start row, break as soon as the
time difference exceeds one day (1440 minutes), and return the first row
whose wind speed exceeds the start wind speed by at least 30. -/
def scanForward (s : TrackPoint) : List TrackPoint → Option TrackPoint
  | [] => none
  | p :: rest =>
    if p.time - s.time > 1440 then none
    else if p.wind - s.wind ≥ 30 then some p
    else scanForward s rest

/-- `is_intensifying(df, index)` of `HI_finder.py`. -/
def is_intensifying (s : TrackPoint) (rest : List TrackPoint) : Bool :=
  (scanForward s rest).isSome

/-- The episode record appended by the recording loop: start fields from
row `i`, end fields from row `j`, `wind_speed_change` their difference,
`duration` the elapsed time converted to hours. -/
def mkEpisode (s q : TrackPoint) : Episode :=
  { hurricane_name := s.name
    start_time := s.time
    start_wind_speed := s.wind
    lat_start := s.lat
    lon_start := s.lon
    end_time := q.time
    end_wind_speed := q.wind
    lat_end := q.lat
    lon_end := q.lon
    wind_speed_change := q.wind - s.wind
    duration := ((q.time - s.time : ℤ) : ℚ) / 60 }

/-- The outer loop of `HI_finder.py`: for each row, if `is_intensifying`
holds, the recording loop re-scans forward and appends the episode for the
first qualifying row, then breaks; the results list is the detector
output. -/
def intensifications : List TrackPoint → List Episode
  | [] => []
  | p :: rest =>
    if is_intensifying p rest then
      match scanForward p rest with
      | some q => mkEpisode p q :: intensifications rest
      | none => intensifications rest
    else intensifications rest

/-- The (at most one) episode whose start row is index `i` of the table. -/
def epAt (df : List TrackPoint) (i : ℕ) : Option Episode :=
  match df.drop i with
  | [] => none
  | p :: rest =>
    if is_intensifying p rest then (scanForward p rest).map (mkEpisode p)
    else none

/-- Fixture for the detector invariant: a two-point storm whose wind
rises by 35 knots in one hour. -/
def c1df : List TrackPoint :=
  [{ name := "ONE", time := 0, wind := 30, lat := 25, lon := -90 },
   { name := "ONE", time := 60, wind := 65, lat := 26, lon := -91 }]

/-- The episode the detector emits on `c1df`. -/
def c1ep : Episode :=
  { hurricane_name := "ONE", start_time := 0, start_wind_speed := 30
    lat_start := 25, lon_start := -90, end_time := 60, end_wind_speed := 65
    lat_end := 26, lon_end := -91, wind_speed_change := 35, duration := 1 }

/-- The fixture from the spec: one storm with wind speeds `[30,40,50,65,70]` at
hourly timestamps. -/
def c3df : List TrackPoint :=
  [{ name := "FIX", time := 0, wind := 30, lat := 20, lon := -90 },
   { name := "FIX", time := 60, wind := 40, lat := 20, lon := -90 },
   { name := "FIX", time := 120, wind := 50, lat := 20, lon := -90 },
   { name := "FIX", time := 180, wind := 65, lat := 20, lon := -90 },
   { name := "FIX", time := 240, wind := 70, lat := 20, lon := -90 }]

/-- Fixture for the first-qualifying-endpoint rule: wind rises by 20 after
one hour and by 35 after two hours. -/
def c4df : List TrackPoint :=
  [{ name := "FOUR", time := 0, wind := 20, lat := 22, lon := -88 },
   { name := "FOUR", time := 60, wind := 40, lat := 22, lon := -88 },
   { name := "FOUR", time := 120, wind := 55, lat := 23, lon := -89 }]

/-- The episode the detector emits on `c4df` for start index 0: its end is
the earliest qualifying row, index 2. -/
def c4ep : Episode :=
  { hurricane_name := "FOUR", start_time := 0, start_wind_speed := 20
    lat_start := 22, lon_start := -88, end_time := 120, end_wind_speed := 55
    lat_end := 23, lon_end := -89, wind_speed_change := 35, duration := 2 }

/-- Chronologically interleaved rows of two different storms, as they
occur in a flat `ibtracs_data.csv` table: the detector never partitions by
`NAME`. -/
def c7df : List TrackPoint :=
  [{ name := "ALPHA", time := 0, wind := 30, lat := 10, lon := -50 },
   { name := "BRAVO", time := 60, wind := 70, lat := 20, lon := -60 }]

/-! ### Compound-event matcher — `scripts/compound_mhw_RI.py`

For each MHW row (NA rows dropped at load time), the script filters the
RI-episode table by haversine distance at most 200 km and by the MHW start
or end date lying within the 10 days up to the RI start, emits one joined
record per filtered RI row, and appends the MHW row to a separate table
when the filter result is empty. -/

/-- Two-argument arctangent as computed by `numpy.arctan2`. -/
noncomputable def arctan2 (y x : ℝ) : ℝ :=
  if 0 < x then Real.arctan (y / x)
  else if x < 0 then
    (if 0 ≤ y then Real.arctan (y / x) + Real.pi else Real.arctan (y / x) - Real.pi)
  else (if 0 < y then Real.pi / 2 else if y < 0 then -(Real.pi / 2) else 0)

/-- `calc_dist` of `compound_mhw_RI.py`: haversine great-circle distance in
km on a sphere of radius 6371 km, with degree inputs converted to
radians. -/
noncomputable def calc_dist (lat1 lon1 lat2 lon2 : ℚ) : ℝ :=
  let R : ℝ := 6371
  let lat1_rad : ℝ := (lat1 : ℝ) * Real.pi / 180
  let lon1_rad : ℝ := (lon1 : ℝ) * Real.pi / 180
  let lat2_rad : ℝ := (lat2 : ℝ) * Real.pi / 180
  let lon2_rad : ℝ := (lon2 : ℝ) * Real.pi / 180
  let dlat : ℝ := lat2_rad - lat1_rad
  let dlon : ℝ := lon2_rad - lon1_rad
  let a : ℝ := Real.sin (dlat / 2) ^ 2 +
    Real.cos lat1_rad * Real.cos lat2_rad * Real.sin (dlon / 2) ^ 2
  let c : ℝ := 2 * arctan2 (Real.sqrt a) (Real.sqrt (1 - a))
  R * c

/-- One row of the RI-episode table `intensifications30_IID_24.csv`, with
the columns `compound_mhw_RI.py` reads; `start_time` in minutes. -/
structure HIRow where
  HI_lat : ℚ
  HI_lon : ℚ
  start_time : ℤ
  HI_name : String
  start_wind_speed : ℚ
  end_time : ℤ
  end_wind_speed : ℚ
deriving DecidableEq, Repr

/-- One row of the MHW table `MHW_1940_2022_80_52.csv` after `dropna`,
with the columns the matcher reads; dates in minutes. -/
structure MHWRow where
  MHW_lat : ℚ
  MHW_lon : ℚ
  date_start : ℤ
  date_peak : ℤ
  date_end : ℤ
  duration : ℚ
  intensity_mean : ℚ
  intensity_max : ℚ
  intensity_var : ℚ
  intensity_cumulative : ℚ
  intensity_mean_relThresh : ℚ
  intensity_max_relThresh : ℚ
  intensity_var_relThresh : ℚ
  intensity_cumulative_relThresh : ℚ
  intensity_mean_abs : ℚ
  intensity_max_abs : ℚ
  intensity_var_abs : ℚ
  intensity_cumulative_abs : ℚ
  rate_onset : ℚ
  rate_decline : ℚ
deriving DecidableEq, Repr

/-- The row predicate of `hi_df_filtered`: distance at most 200 km, and
the MHW start date or end date within the inclusive window from 10 days
(14400 minutes, `pd.DateOffset(days=10)`) before the RI start up to the RI
start. -/
def matchPred (mhw : MHWRow) (hi : HIRow) : Prop :=
  calc_dist mhw.MHW_lat mhw.MHW_lon hi.HI_lat hi.HI_lon ≤ 200 ∧
  ((mhw.date_start ≥ hi.start_time - 14400 ∧ mhw.date_start ≤ hi.start_time) ∨
   (mhw.date_end ≥ hi.start_time - 14400 ∧ mhw.date_end ≤ hi.start_time))

/-- The filtered RI table for one MHW row. -/
noncomputable def hi_df_filtered (mhw : MHWRow) (hi_df : List HIRow) : List HIRow :=
  hi_df.filter (fun hi => @decide (matchPred mhw hi) (Classical.propDecidable _))

/-- One output row of `MHW_info_80_52_24.csv`, with the fields assigned in
`result_dict` (the declared `window_peak` column is never assigned and
stays NaN, so it is not modelled). -/
structure CompoundRecord where
  HI_lat : ℚ
  HI_lon : ℚ
  HI_date : ℤ
  HI_name : String
  MHW_lon : ℚ
  MHW_lat : ℚ
  distance_in_km : ℝ
  start_wind_speed : ℚ
  end_time : ℤ
  end_wind_speed : ℚ
  duration : ℚ
  date_start : ℤ
  date_peak : ℤ
  date_end : ℤ
  intensity_mean : ℚ
  intensity_max : ℚ
  intensity_var : ℚ
  intensity_cumulative : ℚ
  intensity_mean_relThresh : ℚ
  intensity_max_relThresh : ℚ
  intensity_var_relThresh : ℚ
  intensity_cumulative_relThresh : ℚ
  intensity_mean_abs : ℚ
  intensity_max_abs : ℚ
  intensity_var_abs : ℚ
  intensity_cumulative_abs : ℚ
  rate_onset : ℚ
  rate_decline : ℚ
  window_start : ℤ
  window_end : ℤ

/-- `result_dict` of `compound_mhw_RI.py`: the joined record for one
(MHW, RI) pair; `window_start` and `window_end` are pandas `.days` of the
offsets from the RI start, i.e. floor division of the minute difference by
1440 (the `hi_df_filtered.empty` guards inside the loop are always taken
on their non-NaN branch, since the loop iterates over `hi_df_filtered`). -/
noncomputable def result_dict (mhw : MHWRow) (hi : HIRow) : CompoundRecord :=
  { HI_lat := hi.HI_lat
    HI_lon := hi.HI_lon
    HI_date := hi.start_time
    HI_name := hi.HI_name
    MHW_lon := mhw.MHW_lon
    MHW_lat := mhw.MHW_lat
    distance_in_km := calc_dist mhw.MHW_lat mhw.MHW_lon hi.HI_lat hi.HI_lon
    start_wind_speed := hi.start_wind_speed
    end_time := hi.end_time
    end_wind_speed := hi.end_wind_speed
    duration := mhw.duration
    date_start := mhw.date_start
    date_peak := mhw.date_peak
    date_end := mhw.date_end
    intensity_mean := mhw.intensity_mean
    intensity_max := mhw.intensity_max
    intensity_var := mhw.intensity_var
    intensity_cumulative := mhw.intensity_cumulative
    intensity_mean_relThresh := mhw.intensity_mean_relThresh
    intensity_max_relThresh := mhw.intensity_max_relThresh
    intensity_var_relThresh := mhw.intensity_var_relThresh
    intensity_cumulative_relThresh := mhw.intensity_cumulative_relThresh
    intensity_mean_abs := mhw.intensity_mean_abs
    intensity_max_abs := mhw.intensity_max_abs
    intensity_var_abs := mhw.intensity_var_abs
    intensity_cumulative_abs := mhw.intensity_cumulative_abs
    rate_onset := mhw.rate_onset
    rate_decline := mhw.rate_decline
    window_start := (mhw.date_start - hi.start_time).fdiv 1440
    window_end := (mhw.date_end - hi.start_time).fdiv 1440 }

/-- The matched-output table `result_df`: one record per MHW row and
filtered RI row, in iteration order. -/
noncomputable def result_df (mhw_df : List MHWRow) (hi_df : List HIRow) :
    List CompoundRecord :=
  mhw_df.flatMap (fun mhw => (hi_df_filtered mhw hi_df).map (result_dict mhw))

/-- The unmatched-output table `no_ri_df`: the MHW rows whose filtered RI
table is empty, in iteration order. -/
noncomputable def no_ri_df (mhw_df : List MHWRow) (hi_df : List HIRow) :
    List MHWRow :=
  mhw_df.filter (fun mhw => (hi_df_filtered mhw hi_df).isEmpty)

/-- The MHW fields stored in a joined record, reassembled as a row. -/
def recMHW (rec : CompoundRecord) : MHWRow :=
  { MHW_lat := rec.MHW_lat
    MHW_lon := rec.MHW_lon
    date_start := rec.date_start
    date_peak := rec.date_peak
    date_end := rec.date_end
    duration := rec.duration
    intensity_mean := rec.intensity_mean
    intensity_max := rec.intensity_max
    intensity_var := rec.intensity_var
    intensity_cumulative := rec.intensity_cumulative
    intensity_mean_relThresh := rec.intensity_mean_relThresh
    intensity_max_relThresh := rec.intensity_max_relThresh
    intensity_var_relThresh := rec.intensity_var_relThresh
    intensity_cumulative_relThresh := rec.intensity_cumulative_relThresh
    intensity_mean_abs := rec.intensity_mean_abs
    intensity_max_abs := rec.intensity_max_abs
    intensity_var_abs := rec.intensity_var_abs
    intensity_cumulative_abs := rec.intensity_cumulative_abs
    rate_onset := rec.rate_onset
    rate_decline := rec.rate_decline }

/-- One raw row of `MHW_1940_2022_80_52.csv` before `dropna`: any column
may hold a missing value. -/
structure MHWRawRow where
  MHW_lat : Option ℚ
  MHW_lon : Option ℚ
  date_start : Option ℤ
  date_peak : Option ℤ
  date_end : Option ℤ
  duration : Option ℚ
  intensity_mean : Option ℚ
  intensity_max : Option ℚ
  intensity_var : Option ℚ
  intensity_cumulative : Option ℚ
  intensity_mean_relThresh : Option ℚ
  intensity_max_relThresh : Option ℚ
  intensity_var_relThresh : Option ℚ
  intensity_cumulative_relThresh : Option ℚ
  intensity_mean_abs : Option ℚ
  intensity_max_abs : Option ℚ
  intensity_var_abs : Option ℚ
  intensity_cumulative_abs : Option ℚ
  rate_onset : Option ℚ
  rate_decline : Option ℚ
deriving DecidableEq, Repr

/-- A raw row survives `dropna` exactly when every column is present. -/
def toRow (r : MHWRawRow) : Option MHWRow :=
  match r.MHW_lat, r.MHW_lon, r.date_start, r.date_peak, r.date_end,
      r.duration, r.intensity_mean, r.intensity_max, r.intensity_var,
      r.intensity_cumulative, r.intensity_mean_relThresh,
      r.intensity_max_relThresh, r.intensity_var_relThresh,
      r.intensity_cumulative_relThresh, r.intensity_mean_abs,
      r.intensity_max_abs, r.intensity_var_abs, r.intensity_cumulative_abs,
      r.rate_onset, r.rate_decline with
  | some a1, some a2, some a3, some a4, some a5, some a6, some a7, some a8,
    some a9, some a10, some a11, some a12, some a13, some a14, some a15,
    some a16, some a17, some a18, some a19, some a20 =>
    some ⟨a1, a2, a3, a4, a5, a6, a7, a8, a9, a10, a11, a12, a13, a14, a15,
      a16, a17, a18, a19, a20⟩
  | _, _, _, _, _, _, _, _, _, _, _, _, _, _, _, _, _, _, _, _ => none

/-- A raw row contains a missing value in some column. -/
def hasNA (r : MHWRawRow) : Prop :=
  r.MHW_lat = none ∨ r.MHW_lon = none ∨ r.date_start = none ∨
  r.date_peak = none ∨ r.date_end = none ∨ r.duration = none ∨
  r.intensity_mean = none ∨ r.intensity_max = none ∨
  r.intensity_var = none ∨ r.intensity_cumulative = none ∨
  r.intensity_mean_relThresh = none ∨ r.intensity_max_relThresh = none ∨
  r.intensity_var_relThresh = none ∨
  r.intensity_cumulative_relThresh = none ∨ r.intensity_mean_abs = none ∨
  r.intensity_max_abs = none ∨ r.intensity_var_abs = none ∨
  r.intensity_cumulative_abs = none ∨ r.rate_onset = none ∨
  r.rate_decline = none

/-- `pd.read_csv(...).dropna()`: the rows with no missing value, in
order. -/
def dropna (raws : List MHWRawRow) : List MHWRow :=
  raws.filterMap toRow

/-- Fixture MHW row at (25 N, 90 W), starting exactly one day before the
fixture RI episode. -/
def m0 : MHWRow :=
  { MHW_lat := 25, MHW_lon := -90, date_start := 0, date_peak := 1440
    date_end := 2880, duration := 3, intensity_mean := 1, intensity_max := 2
    intensity_var := 1, intensity_cumulative := 3
    intensity_mean_relThresh := 1, intensity_max_relThresh := 2
    intensity_var_relThresh := 1, intensity_cumulative_relThresh := 3
    intensity_mean_abs := 29, intensity_max_abs := 30
    intensity_var_abs := 1, intensity_cumulative_abs := 90
    rate_onset := 1, rate_decline := 1 }

/-- Fixture RI row at the same cell as `m0`, starting at minute 1440. -/
def h0 : HIRow :=
  { HI_lat := 25, HI_lon := -90, start_time := 1440, HI_name := "HUR"
    start_wind_speed := 50, end_time := 2100, end_wind_speed := 85 }

/-- Fixture raw MHW row whose `date_start` column is missing. -/
def r8 : MHWRawRow :=
  { MHW_lat := some 25, MHW_lon := some (-90), date_start := none
    date_peak := some 1440, date_end := some 2880, duration := some 3
    intensity_mean := some 1, intensity_max := some 2
    intensity_var := some 1, intensity_cumulative := some 3
    intensity_mean_relThresh := some 1, intensity_max_relThresh := some 2
    intensity_var_relThresh := some 1
    intensity_cumulative_relThresh := some 3, intensity_mean_abs := some 29
    intensity_max_abs := some 30, intensity_var_abs := some 1
    intensity_cumulative_abs := some 90, rate_onset := some 1
    rate_decline := some 1 }

/-! ### Missing-file-tolerant aggregation — `LHF_plot.py` / `TCHP_plot.py`

Both scripts run the same outer loop over the RI start dates: a date whose
NetCDF lookup finds no file contributes nothing to the running aggregate;
the final division is by `len(ri_dates)`.  The per-date NetCDF extraction
itself (file parsing, clipping) is external I/O and is abstracted as a
lookup function returning an optional clipped field. -/

/-- A clipped gridded field over the Gulf-of-Mexico window. -/
def Grid (rows cols : ℕ) : Type := Fin rows → Fin cols → ℚ

/-- Elementwise `aggregate += data`. -/
def gridAdd {rows cols : ℕ} (a b : Grid rows cols) : Grid rows cols :=
  fun i j => a i j + b i j

/-- Elementwise `aggregate /= n`. -/
def gridDivNat {rows cols : ℕ} (a : Grid rows cols) (n : ℕ) : Grid rows cols :=
  fun i j => a i j / (n : ℚ)

/-- The aggregation loop of `LHF_plot.py` / `TCHP_plot.py`: per date, a
missing file yields no data and the sample is skipped; otherwise its field
is copied (first sample) or added to the running aggregate. -/
def aggregateLoop {rows cols : ℕ} (lookup : ℤ → Option (Grid rows cols)) :
    List ℤ → Option (Grid rows cols) → Option (Grid rows cols)
  | [], acc => acc
  | d :: ds, acc =>
    match lookup d, acc with
    | none, a => aggregateLoop lookup ds a
    | some g, none => aggregateLoop lookup ds (some g)
    | some g, some a => aggregateLoop lookup ds (some (gridAdd a g))

/-- The aggregate mean of `LHF_plot.py` / `TCHP_plot.py`: after the loop,
`aggregate /= len(ri_dates)` divides by the count of all RI dates. -/
def aggregateMean {rows cols : ℕ} (lookup : ℤ → Option (Grid rows cols))
    (dates : List ℤ) : Option (Grid rows cols) :=
  match aggregateLoop lookup dates none with
  | none => none
  | some a => some (gridDivNat a dates.length)

/-- Modelled from the spec: "the computed mean over the remaining samples
equals the mean over only the samples whose files were present" — the sum
of the present samples divided by their own count. -/
def specPresentMean {rows cols : ℕ} (lookup : ℤ → Option (Grid rows cols))
    (dates : List ℤ) : Option (Grid rows cols) :=
  match dates.filterMap lookup with
  | [] => none
  | g :: gs => some (gridDivNat (gs.foldl gridAdd g) (g :: gs).length)

/-- Concrete lookup: the file for date 0 is present with constant field 2;
the file for date 1 is missing. -/
def c9lookup : ℤ → Option (Grid 1 1) :=
  fun d => if d = 0 then some (fun _ _ => 2) else none

/-! ### 3x3-neighborhood grid accumulators —
`conditional_mhw_ri_prob.py` / `RI_reg_prob_plot.py`

Both scripts bin events into the 16x22 one-degree grid over 15-31 N,
100-78 W (17 latitude edges and 23 longitude edges, so 16 and 22 cell
centers) and, per counted event, run
`for i in range(max(0, i_lat - 1), min(i_lat + 2, len(lat_centers)))`
nested with the analogous column loop, adding 1 to each visited cell. -/

/-- `len(lat_centers)`: 16 one-degree latitude cells between 15 N and
31 N. -/
def nlat : ℤ := 16

/-- `len(lon_centers)`: 22 one-degree longitude cells between 100 W and
78 W. -/
def nlon : ℤ := 22

/-- Python `range(a, b)` over integers. -/
def intRange (a b : ℤ) : List ℤ :=
  (List.range (b - a).toNat).map (fun k : ℕ => a + (k : ℤ))

/-- One `grid_counts[i, j] += 1` statement. -/
def bumpCell (g : ℤ → ℤ → ℕ) (i j : ℤ) : ℤ → ℤ → ℕ :=
  fun x y => if x = i ∧ y = j then g x y + 1 else g x y

/-- The increment loops of `conditional_mhw_ri_prob.py` (both passes) and
`RI_reg_prob_plot.py`: add 1 to the central and surrounding cells, with
row range `max(0, i_lat - 1) .. min(i_lat + 2, 16) - 1` and column range
`max(0, i_lon - 1) .. min(i_lon + 2, 22) - 1`. -/
def gridIncrement (i_lat i_lon : ℤ) (g : ℤ → ℤ → ℕ) : ℤ → ℤ → ℕ :=
  (intRange (max 0 (i_lat - 1)) (min (i_lat + 2) nlat)).foldl
    (fun acc i =>
      (intRange (max 0 (i_lon - 1)) (min (i_lon + 2) nlon)).foldl
        (fun acc2 j => bumpCell acc2 i j) acc)
    g

lemma scanForward_bounds {s q : TrackPoint} :
    ∀ {l : List TrackPoint}, scanForward s l = some q →
      q.time - s.time ≤ 1440 ∧ 30 ≤ q.wind - s.wind := by
  intro l
  induction l with
  | nil => intro h; simp [scanForward] at h
  | cons p rest ih =>
    intro h
    by_cases ht : p.time - s.time > 1440
    · simp [scanForward, ht] at h
    · by_cases hw : p.wind - s.wind ≥ 30
      · simp [scanForward, ht, hw] at h
        subst h
        exact ⟨by omega, hw⟩
      · simp [scanForward, ht, hw] at h
        exact ih h

lemma scanForward_first {s q : TrackPoint} :
    ∀ {l : List TrackPoint}, scanForward s l = some q →
      ∃ (j : ℕ) (hj : j < l.length),
        l.get ⟨j, hj⟩ = q ∧
        ∀ (k : ℕ) (hk : k < l.length), k < j →
          ¬((l.get ⟨k, hk⟩).time - s.time ≤ 1440 ∧
            30 ≤ (l.get ⟨k, hk⟩).wind - s.wind) := by
  intro l
  induction l with
  | nil => intro h; simp [scanForward] at h
  | cons p rest ih =>
    intro h
    by_cases ht : p.time - s.time > 1440
    · simp [scanForward, ht] at h
    · by_cases hw : p.wind - s.wind ≥ 30
      · simp [scanForward, ht, hw] at h
        exact ⟨0, by simp, by simpa using h, by omega⟩
      · simp [scanForward, ht, hw] at h
        obtain ⟨j, hj, hget, hmin⟩ := ih h
        refine ⟨j + 1, by simpa using Nat.succ_lt_succ hj, by simpa using hget, ?_⟩
        intro k hk hkj
        cases k with
        | zero =>
          intro hcon
          exact hw hcon.2
        | succ k =>
          have hk2 : k < rest.length := by simpa using Nat.lt_of_succ_lt_succ hk
          have := hmin k hk2 (Nat.lt_of_succ_lt_succ hkj)
          simpa using this

lemma mem_intensifications {ep : Episode} :
    ∀ {df : List TrackPoint}, ep ∈ intensifications df →
      ∃ (s q : TrackPoint) (rest : List TrackPoint),
        scanForward s rest = some q ∧ ep = mkEpisode s q := by
  intro df
  induction df with
  | nil => intro h; simp [intensifications] at h
  | cons p rest ih =>
    intro h
    unfold intensifications at h
    rcases hscan : scanForward p rest with _ | q
    · rw [hscan] at h
      simp [is_intensifying, hscan] at h
      exact ih h
    · rw [hscan] at h
      simp [is_intensifying, hscan] at h
      rcases h with h | h
      · exact ⟨p, q, rest, hscan, h⟩
      · exact ih h

lemma intensifications_eq_filterMap (df : List TrackPoint) :
    intensifications df = (List.range df.length).filterMap (epAt df) := by
  induction df with
  | nil => simp [intensifications]
  | cons p rest ih =>
    have hshift : ∀ i : ℕ, epAt (p :: rest) (i + 1) = epAt rest i := by
      intro i; rfl
    have hcomp : (epAt (p :: rest)) ∘ Nat.succ = epAt rest := by
      funext i
      exact hshift i
    rw [show (p :: rest).length = rest.length + 1 from rfl,
        List.range_succ_eq_map, List.filterMap_cons, List.filterMap_map, hcomp, ← ih]
    rcases hscan : scanForward p rest with _ | q
    · simp [intensifications, epAt, is_intensifying, hscan]
    · simp [intensifications, epAt, is_intensifying, hscan]

lemma intensifications_c1df : intensifications c1df = [c1ep] := by
  norm_num [c1df, c1ep, intensifications, is_intensifying, scanForward, mkEpisode]

lemma epAt_c4df : epAt c4df 0 = some c4ep := by
  norm_num [c4df, c4ep, epAt, is_intensifying, scanForward, mkEpisode]

/-- C1: every RI Episode emitted by the RI Detector satisfies
`wind_speed_change ≥ 30` and `duration ≤ 24` hours; no emitted episode
violates either bound. -/
theorem C1_episode_bounds (df : List TrackPoint) (ep : Episode)
    (h : ep ∈ intensifications df) :
    30 ≤ ep.wind_speed_change ∧ ep.duration ≤ 24 := by
  obtain ⟨s, q, rest, hscan, hep⟩ := mem_intensifications h
  obtain ⟨ht, hw⟩ := scanForward_bounds hscan
  subst hep
  constructor
  · exact hw
  · show ((q.time - s.time : ℤ) : ℚ) / 60 ≤ 24
    rw [div_le_iff₀ (by norm_num : (0 : ℚ) < 60)]
    have ht2 : ((q.time - s.time : ℤ) : ℚ) ≤ 1440 := by exact_mod_cast ht
    linarith

/-- Witness for C1: the detector run on `c1df` emits the concrete episode
`c1ep`, whose delta and duration obey both bounds. -/
theorem C1_episode_bounds_witness :
    30 ≤ c1ep.wind_speed_change ∧ c1ep.duration ≤ 24 :=
  C1_episode_bounds c1df c1ep (by rw [intensifications_c1df]; exact List.mem_singleton_self c1ep)

/-- Counterexample for C3: on wind speeds `[30,40,50,65,70]` at hourly
timestamps the detector does not report exactly one episode (it reports
two: index 1 also rises by 30 knots, to index 4, within 24 hours). -/
theorem C3_counterexample : (intensifications c3df).length ≠ 1 := by
  norm_num [c3df, intensifications, is_intensifying, scanForward]

/-- C3 (amended): on wind speeds `[30,40,50,65,70]` at hourly timestamps
the detector reports exactly two episodes: one starting at index 0 with
delta 35 (ending at index 3), and one starting at index 1 with delta 30
(ending at index 4); each candidate start yields at most one episode. -/
theorem C3_two_episodes :
    intensifications c3df =
      [{ hurricane_name := "FIX", start_time := 0, start_wind_speed := 30
         lat_start := 20, lon_start := -90, end_time := 180
         end_wind_speed := 65, lat_end := 20, lon_end := -90
         wind_speed_change := 35, duration := 3 },
       { hurricane_name := "FIX", start_time := 60, start_wind_speed := 40
         lat_start := 20, lon_start := -90, end_time := 240
         end_wind_speed := 70, lat_end := 20, lon_end := -90
         wind_speed_change := 30, duration := 3 }] := by
  norm_num [c3df, intensifications, is_intensifying, scanForward, mkEpisode]

/-- C4: the detector output has exactly one candidate episode slot per
start index (so at most one episode starts at any index `i`), and whenever
index `i` produces an episode, its end point is the earliest index `j > i`
whose row is within 24 hours of row `i` and exceeds its wind speed by at
least 30; the episode records start fields from row `i`, end fields from
row `j`, delta their wind difference, and duration the elapsed hours. -/
theorem C4_first_qualifying (df : List TrackPoint) :
    intensifications df = (List.range df.length).filterMap (epAt df) ∧
    ∀ (i : ℕ) (ep : Episode), epAt df i = some ep →
      ∃ (hi : i < df.length) (j : ℕ) (hj : j < df.length), i < j ∧
        (df.get ⟨j, hj⟩).time - (df.get ⟨i, hi⟩).time ≤ 1440 ∧
        30 ≤ (df.get ⟨j, hj⟩).wind - (df.get ⟨i, hi⟩).wind ∧
        (∀ (k : ℕ) (hk : k < df.length), i < k → k < j →
          ¬((df.get ⟨k, hk⟩).time - (df.get ⟨i, hi⟩).time ≤ 1440 ∧
            30 ≤ (df.get ⟨k, hk⟩).wind - (df.get ⟨i, hi⟩).wind)) ∧
        ep = mkEpisode (df.get ⟨i, hi⟩) (df.get ⟨j, hj⟩) := by
  refine ⟨intensifications_eq_filterMap df, ?_⟩
  intro i ep h
  unfold epAt at h
  rcases hdrop : df.drop i with _ | ⟨p, rest⟩ <;> rw [hdrop] at h
  · simp at h
  · rcases hscan : scanForward p rest with _ | q <;>
      simp [is_intensifying, hscan] at h
    have hi : i < df.length := by
      have hlen := congrArg List.length hdrop
      simp [List.length_drop] at hlen
      omega
    have hsplit : df.drop i = df.get ⟨i, hi⟩ :: df.drop (i + 1) := by
      simp [List.get_eq_getElem]
    rw [hdrop] at hsplit
    have hp : p = df.get ⟨i, hi⟩ := (List.cons.injEq _ _ _ _ ▸ hsplit).1
    have hrest : rest = df.drop (i + 1) := (List.cons.injEq _ _ _ _ ▸ hsplit).2
    subst hrest
    obtain ⟨ht, hw⟩ := scanForward_bounds hscan
    obtain ⟨j0, hj0, hgetq, hmin⟩ := scanForward_first hscan
    have hj0len : j0 < df.length - (i + 1) := by
      simpa [List.length_drop] using hj0
    have hj : i + 1 + j0 < df.length := by omega
    have hq : df.get ⟨i + 1 + j0, hj⟩ = q := by
      simpa [List.get_eq_getElem, List.getElem_drop] using hgetq
    refine ⟨hi, i + 1 + j0, hj, by omega, ?_, ?_, ?_, ?_⟩
    · rw [hq, ← hp]; exact ht
    · rw [hq, ← hp]; exact hw
    · intro k hk hik hkj
      have hk0 : k - (i + 1) < (df.drop (i + 1)).length := by
        simp [List.length_drop]; omega
      have hkeq : i + 1 + (k - (i + 1)) = k := by omega
      have hgk : (df.drop (i + 1)).get ⟨k - (i + 1), hk0⟩ = df.get ⟨k, hk⟩ := by
        simp [List.get_eq_getElem, List.getElem_drop, hkeq]
      have := hmin (k - (i + 1)) hk0 (by omega)
      rw [hgk, hp] at this
      exact this
    · rw [hq, ← hp]; exact h.symm

/-- Witness for C4: on `c4df` the detector emits `c4ep` from start index
0, ending at index 2, the earliest row 30 knots faster within 24 hours. -/
theorem C4_first_qualifying_witness :
    ∃ (hi : 0 < c4df.length) (j : ℕ) (hj : j < c4df.length), 0 < j ∧
      (c4df.get ⟨j, hj⟩).time - (c4df.get ⟨0, hi⟩).time ≤ 1440 ∧
      30 ≤ (c4df.get ⟨j, hj⟩).wind - (c4df.get ⟨0, hi⟩).wind ∧
      (∀ (k : ℕ) (hk : k < c4df.length), 0 < k → k < j →
        ¬((c4df.get ⟨k, hk⟩).time - (c4df.get ⟨0, hi⟩).time ≤ 1440 ∧
          30 ≤ (c4df.get ⟨k, hk⟩).wind - (c4df.get ⟨0, hi⟩).wind)) ∧
      c4ep = mkEpisode (c4df.get ⟨0, hi⟩) (c4df.get ⟨j, hj⟩) :=
  (C4_first_qualifying c4df).2 0 c4ep epAt_c4df

/-- C7: the detector never partitions the input table by storm identity:
on the interleaved table `c7df` it emits one episode whose start fields
come from the ALPHA row and whose end fields come from the BRAVO row, and
the episode carries the storm name of the start row, while the input row
supplying the end fields is named BRAVO. -/
theorem C7_cross_storm_episode :
    intensifications c7df =
      [{ hurricane_name := "ALPHA", start_time := 0, start_wind_speed := 30
         lat_start := 10, lon_start := -50, end_time := 60
         end_wind_speed := 70, lat_end := 20, lon_end := -60
         wind_speed_change := 40, duration := 1 }] ∧
    (c7df.get ⟨1, by decide⟩).name = "BRAVO" ∧
    (c7df.get ⟨1, by decide⟩).time = 60 ∧
    (c7df.get ⟨1, by decide⟩).lat = 20 ∧
    "BRAVO" ≠ "ALPHA" := by
  refine ⟨?_, by decide, by decide, by decide, by decide⟩
  norm_num [c7df, intensifications, is_intensifying, scanForward, mkEpisode]

lemma calc_dist_self (lat lon : ℚ) : calc_dist lat lon lat lon = 0 := by
  simp [calc_dist, arctan2]

lemma mem_hi_df_filtered {mhw : MHWRow} {hi_df : List HIRow} {hi : HIRow} :
    hi ∈ hi_df_filtered mhw hi_df ↔ hi ∈ hi_df ∧ matchPred mhw hi := by
  simp [hi_df_filtered, List.mem_filter]

lemma result_dict_inj {m1 m2 : MHWRow} {h1 h2 : HIRow}
    (h : result_dict m1 h1 = result_dict m2 h2) : m1 = m2 ∧ h1 = h2 := by
  cases m1; cases m2; cases h1; cases h2
  simp only [result_dict, CompoundRecord.mk.injEq] at h
  simp only [MHWRow.mk.injEq, HIRow.mk.injEq]
  tauto

lemma recMHW_result_dict (mhw : MHWRow) (hi : HIRow) :
    recMHW (result_dict mhw hi) = mhw := rfl

lemma matchPred_m0_h0 : matchPred m0 h0 := by
  constructor
  · show calc_dist 25 (-90) 25 (-90) ≤ 200
    rw [calc_dist_self]
    norm_num
  · exact Or.inl (by norm_num [m0, h0])

lemma result_dict_mem_m0_h0 : result_dict m0 h0 ∈ result_df [m0] [h0] := by
  refine List.mem_flatMap.2 ⟨m0, List.mem_singleton_self m0, ?_⟩
  exact List.mem_map.2 ⟨h0, mem_hi_df_filtered.2 ⟨List.mem_singleton_self h0,
    matchPred_m0_h0⟩, rfl⟩

lemma toRow_eq_none_of_hasNA {r : MHWRawRow} (h : hasNA r) : toRow r = none := by
  unfold toRow
  split
  · exfalso
    rcases h with h|h|h|h|h|h|h|h|h|h|h|h|h|h|h|h|h|h|h|h <;> simp_all
  · rfl

/-- C2: a joined record for an MHW row and an RI row of the input tables
is emitted if and only if the haversine distance (Earth radius 6371 km)
between the MHW cell and the RI start position is at most 200 km and the
MHW start or end date lies in the inclusive 10-day window ending at the RI
start. -/
theorem C2_match_iff (mhw_df : List MHWRow) (hi_df : List HIRow)
    (mhw : MHWRow) (hi : HIRow) (hm : mhw ∈ mhw_df) (hh : hi ∈ hi_df) :
    result_dict mhw hi ∈ result_df mhw_df hi_df ↔
      (calc_dist mhw.MHW_lat mhw.MHW_lon hi.HI_lat hi.HI_lon ≤ 200 ∧
       ((hi.start_time - 14400 ≤ mhw.date_start ∧ mhw.date_start ≤ hi.start_time) ∨
        (hi.start_time - 14400 ≤ mhw.date_end ∧ mhw.date_end ≤ hi.start_time))) := by
  constructor
  · intro hmem
    obtain ⟨m2, hm2, hmap⟩ := List.mem_flatMap.1 hmem
    obtain ⟨h2, hh2, heq⟩ := List.mem_map.1 hmap
    obtain ⟨hmeq, hheq⟩ := result_dict_inj heq
    subst hmeq
    subst hheq
    exact (mem_hi_df_filtered.1 hh2).2
  · intro hpred
    refine List.mem_flatMap.2 ⟨mhw, hm, ?_⟩
    exact List.mem_map.2 ⟨hi, mem_hi_df_filtered.2 ⟨hh, hpred⟩, rfl⟩

/-- Witness for C2: with the single-row tables `[m0]` and `[h0]`, the
emission of the joined record is equivalent to the spatiotemporal
predicate. -/
theorem C2_match_iff_witness :
    result_dict m0 h0 ∈ result_df [m0] [h0] ↔
      (calc_dist m0.MHW_lat m0.MHW_lon h0.HI_lat h0.HI_lon ≤ 200 ∧
       ((h0.start_time - 14400 ≤ m0.date_start ∧ m0.date_start ≤ h0.start_time) ∨
        (h0.start_time - 14400 ≤ m0.date_end ∧ m0.date_end ≤ h0.start_time))) :=
  C2_match_iff [m0] [h0] m0 h0 (List.mem_singleton_self m0)
    (List.mem_singleton_self h0)

/-- C5: in every emitted record, the day-offset fields are computed
relative to the RI start only: `window_start` is the floor of
`(date_start - HI_date)` in whole days and `window_end` the floor of
`(date_end - HI_date)` in whole days, with all three dates carried in the
record itself. -/
theorem C5_window_offsets (mhw_df : List MHWRow) (hi_df : List HIRow)
    (rec : CompoundRecord) (h : rec ∈ result_df mhw_df hi_df) :
    rec.window_start = (rec.date_start - rec.HI_date).fdiv 1440 ∧
    rec.window_end = (rec.date_end - rec.HI_date).fdiv 1440 := by
  obtain ⟨mhw, hm, hmap⟩ := List.mem_flatMap.1 h
  obtain ⟨hi, hh, heq⟩ := List.mem_map.1 hmap
  subst heq
  exact ⟨rfl, rfl⟩

/-- Witness for C5: the record emitted for `m0` and `h0` carries
`window_start = -1` computed as the floored day difference to the RI
start. -/
theorem C5_window_offsets_witness :
    (result_dict m0 h0).window_start =
      ((result_dict m0 h0).date_start - (result_dict m0 h0).HI_date).fdiv 1440 ∧
    (result_dict m0 h0).window_end =
      ((result_dict m0 h0).date_end - (result_dict m0 h0).HI_date).fdiv 1440 :=
  C5_window_offsets [m0] [h0] (result_dict m0 h0) result_dict_mem_m0_h0

/-- C6: an MHW row of the input with no RI row within 200 km and the
10-day window appears exactly once in the unmatched output and never
contributes a record to the matched output. -/
theorem C6_unmatched (mhw_df : List MHWRow) (hi_df : List HIRow)
    (mhw : MHWRow) (hm : mhw ∈ mhw_df) (hcount : mhw_df.count mhw = 1)
    (hnone : ∀ hi ∈ hi_df, ¬matchPred mhw hi) :
    (no_ri_df mhw_df hi_df).count mhw = 1 ∧
    ∀ rec ∈ result_df mhw_df hi_df, recMHW rec ≠ mhw := by
  have hempty : hi_df_filtered mhw hi_df = [] := by
    simp only [hi_df_filtered, List.filter_eq_nil_iff]
    intro hi hhi
    simpa using hnone hi hhi
  constructor
  · rw [no_ri_df, List.count_filter (by simp [hempty]), hcount]
  · intro rec hrec hrm
    obtain ⟨m2, hm2, hmap⟩ := List.mem_flatMap.1 hrec
    obtain ⟨h2, hh2, heq⟩ := List.mem_map.1 hmap
    rw [← heq, recMHW_result_dict] at hrm
    subst hrm
    rw [hempty] at hh2
    simp at hh2

/-- Witness for C6: with an empty RI table, `m0` lands exactly once in the
unmatched output and the matched output contains nothing for it. -/
theorem C6_unmatched_witness :
    (no_ri_df [m0] []).count m0 = 1 ∧
    ∀ rec ∈ result_df [m0] [], recMHW rec ≠ m0 :=
  C6_unmatched [m0] [] m0 (List.mem_singleton_self m0)
    (List.count_singleton_self m0) (by simp)

/-- C8: an MHW input row with a missing value in any column is dropped by
`dropna` before matching begins (it cleans to no row at all), and every
row of the unmatched output and every MHW image of a matched record comes
from some other input row, regardless of the RI table. -/
theorem C8_na_rows_dropped (raws : List MHWRawRow) (hi_df : List HIRow)
    (r : MHWRawRow) (_hr : r ∈ raws) (hna : hasNA r) :
    toRow r = none ∧
    (∀ mhw ∈ no_ri_df (dropna raws) hi_df,
      ∃ r2 ∈ raws, toRow r2 = some mhw ∧ r2 ≠ r) ∧
    (∀ rec ∈ result_df (dropna raws) hi_df,
      ∃ r2 ∈ raws, toRow r2 = some (recMHW rec) ∧ r2 ≠ r) := by
  have hnone := toRow_eq_none_of_hasNA hna
  refine ⟨hnone, ?_, ?_⟩
  · intro mhw hmem
    have hmem2 : mhw ∈ dropna raws := List.mem_of_mem_filter hmem
    obtain ⟨r2, hr2, htr⟩ := List.mem_filterMap.1 hmem2
    exact ⟨r2, hr2, htr, fun hcon => by simp [hcon, hnone] at htr⟩
  · intro rec hrec
    obtain ⟨m2, hm2, hmap⟩ := List.mem_flatMap.1 hrec
    obtain ⟨h2, hh2, heq⟩ := List.mem_map.1 hmap
    obtain ⟨r2, hr2, htr⟩ := List.mem_filterMap.1 hm2
    rw [← heq, recMHW_result_dict]
    exact ⟨r2, hr2, htr, fun hcon => by simp [hcon, hnone] at htr⟩

/-- Witness for C8: the raw row `r8`, whose `date_start` is missing,
cleans to no row, and with input `[r8]` both outputs contain nothing
derived from it. -/
theorem C8_na_rows_dropped_witness :
    toRow r8 = none ∧
    (∀ mhw ∈ no_ri_df (dropna [r8]) [h0],
      ∃ r2 ∈ [r8], toRow r2 = some mhw ∧ r2 ≠ r8) ∧
    (∀ rec ∈ result_df (dropna [r8]) [h0],
      ∃ r2 ∈ [r8], toRow r2 = some (recMHW rec) ∧ r2 ≠ r8) :=
  C8_na_rows_dropped [r8] [h0] r8 (List.mem_singleton_self r8)
    (by simp [hasNA, r8])

lemma aggregateLoop_some {rows cols : ℕ} (lookup : ℤ → Option (Grid rows cols)) :
    ∀ (dates : List ℤ) (a : Grid rows cols),
      aggregateLoop lookup dates (some a) =
        some ((dates.filterMap lookup).foldl gridAdd a) := by
  intro dates
  induction dates with
  | nil => intro a; simp [aggregateLoop]
  | cons d ds ih =>
    intro a
    rcases hd : lookup d with _ | g
    · simp [aggregateLoop, hd, ih]
    · simp [aggregateLoop, hd, ih]

lemma aggregateLoop_none {rows cols : ℕ} (lookup : ℤ → Option (Grid rows cols)) :
    ∀ dates : List ℤ,
      aggregateLoop lookup dates none =
        match dates.filterMap lookup with
        | [] => none
        | g :: gs => some (gs.foldl gridAdd g) := by
  intro dates
  induction dates with
  | nil => simp [aggregateLoop]
  | cons d ds ih =>
    rcases hd : lookup d with _ | g
    · simp [aggregateLoop, hd, ih]
    · simp [aggregateLoop, hd, aggregateLoop_some]

/-- Counterexample for C9: with the file for date 0 present (constant
field 2) and the file for date 1 missing, the aggregate mean of the scripts is
the constant 1 (sum 2 divided by 2 dates), not the mean 2 over the one
present sample. -/
theorem C9_counterexample :
    aggregateMean c9lookup [0, 1] ≠ specPresentMean c9lookup [0, 1] := by
  intro h
  have h1 : aggregateMean c9lookup [0, 1] =
      some (gridDivNat (fun _ _ => 2) 2) := rfl
  have h2 : specPresentMean c9lookup [0, 1] =
      some (gridDivNat (fun _ _ => 2) 1) := rfl
  rw [h1, h2] at h
  have h3 := congrFun (congrFun (Option.some.inj h) 0) 0
  norm_num [gridDivNat] at h3

/-- C9 (amended): a missing data file is non-fatal — the affected sample
is skipped and contributes nothing to the aggregate sum — but the final
division is by the total number of RI dates, so the computed mean is the
sum over the present samples divided by the count of all samples,
including the skipped ones. -/
theorem C9_mean_divides_by_all_dates {rows cols : ℕ}
    (lookup : ℤ → Option (Grid rows cols)) (dates : List ℤ) :
    aggregateMean lookup dates =
      match dates.filterMap lookup with
      | [] => none
      | g :: gs => some (gridDivNat (gs.foldl gridAdd g) dates.length) := by
  rw [aggregateMean, aggregateLoop_none]
  rcases hfm : dates.filterMap lookup with _ | ⟨g, gs⟩ <;> simp

lemma mem_intRange {a b x : ℤ} : x ∈ intRange a b ↔ a ≤ x ∧ x < b := by
  constructor
  · intro h
    simp only [intRange, List.mem_map, List.mem_range] at h
    obtain ⟨k, hk, rfl⟩ := h
    omega
  · intro h
    simp only [intRange, List.mem_map, List.mem_range]
    exact ⟨(x - a).toNat, by omega, by omega⟩

lemma intRange_nodup (a b : ℤ) : (intRange a b).Nodup :=
  List.Nodup.map (fun k1 k2 h => by omega) (List.nodup_range _)

lemma count_intRange (a b x : ℤ) :
    (intRange a b).count x = if a ≤ x ∧ x < b then 1 else 0 := by
  rw [List.count_eq_of_nodup (intRange_nodup a b)]
  by_cases h : a ≤ x ∧ x < b
  · rw [if_pos (mem_intRange.2 h), if_pos h]
  · rw [if_neg (fun hm => h (mem_intRange.1 hm)), if_neg h]

lemma foldl_bumpCell_row (js : List ℤ) (g : ℤ → ℤ → ℕ) (i x y : ℤ) :
    (js.foldl (fun acc2 j => bumpCell acc2 i j) g) x y =
      g x y + (if x = i then js.count y else 0) := by
  induction js generalizing g with
  | nil => simp
  | cons j js ih =>
    rw [List.foldl_cons, ih]
    by_cases hx : x = i
    · simp only [bumpCell, hx, List.count_cons, if_pos rfl, beq_iff_eq]
      by_cases hy : y = j <;> simp [hy] <;> omega
    · simp [bumpCell, hx]

lemma foldl_bumpCell_grid (is js : List ℤ) (g : ℤ → ℤ → ℕ) (x y : ℤ) :
    (is.foldl
      (fun acc i => js.foldl (fun acc2 j => bumpCell acc2 i j) acc) g) x y =
      g x y + is.count x * js.count y := by
  induction is generalizing g with
  | nil => simp
  | cons i is ih =>
    rw [List.foldl_cons, ih, foldl_bumpCell_row]
    simp only [List.count_cons, beq_iff_eq]
    by_cases hx : x = i
    · subst hx
      simp
      ring
    · simp [hx, Ne.symm hx]

/-- C10: per counted event, the cells incremented by the grid accumulators
are exactly the 3x3 neighborhood of the cell of the event `(i_lat, i_lon)`
intersected with the 16x22 grid bounds: every such cell gains exactly 1,
and every other cell — in particular every cell outside the grid — is
unchanged. -/
theorem C10_neighborhood_increment (i_lat i_lon : ℤ) (g : ℤ → ℤ → ℕ)
    (x y : ℤ) :
    gridIncrement i_lat i_lon g x y =
      g x y +
        (if i_lat - 1 ≤ x ∧ x ≤ i_lat + 1 ∧ i_lon - 1 ≤ y ∧ y ≤ i_lon + 1 ∧
            0 ≤ x ∧ x < 16 ∧ 0 ≤ y ∧ y < 22 then 1 else 0) := by
  rw [gridIncrement, foldl_bumpCell_grid, count_intRange, count_intRange]
  split_ifs with h1 h2 h3 h4 h5 <;>
    first
      | (exfalso
         simp only [nlat, nlon, max_le_iff, sup_le_iff, lt_min_iff,
           lt_inf_iff] at *
         omega)
      | norm_num

end GoM
